import Mathlib

/-
Verification of the remy voice-companion core: a shallow embedding of
src/coze_client.py (protocol state machine, emotion detection, empathy
mapping), src/audio_handler.py (playback queue, audio level monitor) and
the orchestrator wiring in src/main.py, together with theorems settling
the behavioural claims about these components.
-/

namespace Remy

/-! ## Emotion detection (coze_client.py, _detect_emotion_from_text) -/

/-- ASCII lowercasing of a string, viewed as its character list.  Mirrors
Python str.lower on the inputs that occur here (identity on CJK and emoji). -/
def lowerChars (s : String) : List Char := s.data.map Char.toLower

/-- Substring test on character lists; mirrors the Python `kw in text` test. -/
def containsSub (needle : List Char) (hay : List Char) : Bool :=
  needle.isPrefixOf hay ||
    match hay with
    | [] => false
    | _ :: t => containsSub needle t

/-- Happy indicators (Chinese + English), from _detect_emotion_from_text. -/
def happy_keywords : List String :=
  ["哈哈", "嘻嘻", "开心", "高兴", "太好了", "棒", "真棒", "厉害",
   "恭喜", "祝贺", "欢迎", "期待", "兴奋", "太棒", "好玩", "有趣",
   "喜欢", "爱", "幸福", "快乐", "嘿嘿", "耶", "哇", "好耶",
   "haha", "hehe", "happy", "great", "awesome", "wonderful", "excited",
   "！！", "~~", "^_^", ":)", "😊", "😄", "🎉"]

/-- Sad indicators, from _detect_emotion_from_text. -/
def sad_keywords : List String :=
  ["难过", "伤心", "抱歉", "对不起", "遗憾", "可惜", "唉", "哎",
   "心疼", "同情", "理解你", "不容易", "辛苦", "委屈", "失望",
   "sorry", "sad", "unfortunately", "regret",
   "呜", "...", "😢", "😔"]

/-- Angry indicators, from _detect_emotion_from_text. -/
def angry_keywords : List String :=
  ["生气", "愤怒", "讨厌", "烦", "可恶", "气死", "受不了",
   "不行", "不可以", "不允许", "警告", "注意", "严肃",
   "angry", "annoyed", "stop", "warning",
   "！！！", "😠", "😤"]

/-- Surprised indicators, from _detect_emotion_from_text. -/
def surprised_keywords : List String :=
  ["哇", "天哪", "真的吗", "不会吧", "居然", "竟然", "没想到",
   "意外", "惊讶", "震惊", "吓", "啊", "诶", "咦",
   "wow", "really", "amazing", "incredible", "surprised", "what",
   "？？", "?!", "！？", "😮", "😲", "🤯"]

/-- Number of keywords of a category occurring in the lowercased text:
`sum(1 for kw in keywords if kw in text_lower)`. -/
def keywordScore (kws : List String) (text_lower : List Char) : Nat :=
  (kws.filter (fun kw => containsSub kw.data text_lower)).length

/-- The scores dict of _detect_emotion_from_text, in its insertion order. -/
def emotionScores (text : String) : List (String × Nat) :=
  [(("happy"), keywordScore happy_keywords (lowerChars text)),
   (("sad"), keywordScore sad_keywords (lowerChars text)),
   (("angry"), keywordScore angry_keywords (lowerChars text)),
   (("surprised"), keywordScore surprised_keywords (lowerChars text))]

/-- Python max(scores, key=scores.get): iterate in insertion order and keep
the first entry with maximal score (a later entry replaces the current one
only when strictly greater). -/
def pyMaxByScore : List (String × Nat) → String × Nat
  | [] => (("") , 0)
  | x :: t => t.foldl (fun acc y => if y.2 > acc.2 then y else acc) x

/-- Embeds _detect_emotion_from_text: the emotion with the highest match count,
provided at least one keyword matched; otherwise none. -/
def detect_emotion_from_text (text : String) : Option String :=
  if 1 ≤ (pyMaxByScore (emotionScores text)).2 then
    some ((pyMaxByScore (emotionScores text)).1)
  else
    none

/-- The maximum of the four category scores. -/
def specMaxScore (text : String) : Nat :=
  max (max (keywordScore happy_keywords (lowerChars text))
           (keywordScore sad_keywords (lowerChars text)))
      (max (keywordScore angry_keywords (lowerChars text))
           (keywordScore surprised_keywords (lowerChars text)))

/-- Emotion detection as worded by the spec: the first category, in the
fixed order happy, sad, angry, surprised, whose count equals the maximal
count, provided that count is at least 1; otherwise no emotion. -/
def specDetectEmotion (text : String) : Option String :=
  if 1 ≤ specMaxScore text then
    if keywordScore happy_keywords (lowerChars text) = specMaxScore text then some ("happy")
    else if keywordScore sad_keywords (lowerChars text) = specMaxScore text then some ("sad")
    else if keywordScore angry_keywords (lowerChars text) = specMaxScore text then some ("angry")
    else some ("surprised")
  else none

/-! ## Empathy and TTS emotion maps (coze_client.py) -/

/-- ASCII lowercasing returning a string; mirrors Python str.lower here. -/
def lowerString (s : String) : String := String.mk (lowerChars s)

/-- Embeds _get_empathetic_emotion: empathy_map.get(user_emotion.lower(), "neutral"). -/
def get_empathetic_emotion (user_emotion : String) : String :=
  if lowerString user_emotion = "happy" then ("happy")
  else if lowerString user_emotion = "sad" then ("sad")
  else if lowerString user_emotion = "angry" then ("neutral")
  else if lowerString user_emotion = "surprised" then ("happy")
  else if lowerString user_emotion = "neutral" then ("neutral")
  else ("neutral")

/-- The emotion_map lookup inside update_tts_emotion (Coze spells the
surprised tone "surprise"); applied to the already-lowercased name. -/
def cozeEmotionName (e : String) : String :=
  if e = "happy" then ("happy")
  else if e = "sad" then ("sad")
  else if e = "angry" then ("angry")
  else if e = "surprised" then ("surprise")
  else if e = "neutral" then ("neutral")
  else ("neutral")

/-! ## Client session state machine (coze_client.py, CozeRealtimeClient) -/

/-- The mutable session fields of CozeRealtimeClient (the websocket handle
and callbacks are modelled by the output list of each handler). -/
structure ClientState where
  is_connected : Bool
  is_configured : Bool
  conversation_id : Option String
  current_chat_id : Option String
  is_user_speaking : Bool
  is_ai_speaking : Bool
  is_processing : Bool
  current_user_emotion : Option String
deriving DecidableEq, Repr

/-- The state set up by CozeRealtimeClient.__init__. -/
def initialClientState : ClientState :=
  { is_connected := false, is_configured := false, conversation_id := none,
    current_chat_id := none, is_user_speaking := false, is_ai_speaking := false,
    is_processing := false, current_user_emotion := none }

/-- Observable effects of a handler: outbound websocket commands (send) and
callback invocations; debug covers _log. -/
inductive Output where
  | send (event_type : String) (emotion : Option String)
  | stateChange (state : String)
  | emotionEvent (emotion : String)
  | transcript (text : String) (is_final : Bool)
  | aiTranscript (text : String)
  | errorEvent (msg : String)
  | readyEvent
  | audioEvent (audio : String)
  | debug (msg : String)
deriving DecidableEq, Repr

/-- The payload fields of an inbound event that the handlers read. -/
structure EventData where
  id : Option String := none
  conversation_id : Option String := none
  content : String := ""
  delta : String := ""
  emotion : Option String := none
  user_emotion : Option String := none
  voice_emotion : Option String := none
deriving DecidableEq, Repr

/-- Embeds _send_event: emits the command only when connected, otherwise logs.
The emotion argument carries the emotion_config field of a chat.update
payload when present (none for every other payload). -/
def sendEvent (s : ClientState) (event_type : String) (emo : Option String) : List Output :=
  if s.is_connected then [Output.send event_type emo]
  else [Output.debug ("Cannot send: not connected")]

/-- cancel_response: send conversation.chat.cancel, then clear is_ai_speaking. -/
def cancel_response (s : ClientState) : ClientState × List Output :=
  ({ s with is_ai_speaking := false }, sendEvent s ("conversation.chat.cancel") none)

/-- update_tts_emotion: map through emotion_map on the lowercased name and
send one chat.update carrying an emotion_config. -/
def update_tts_emotion (s : ClientState) (emotion : String) : List Output :=
  [Output.debug ("UPDATING TTS EMOTION")] ++
    sendEvent s ("chat.update") (some (cozeEmotionName (lowerString emotion)))

/-- Python truthiness of an optional string (None and the empty string are
falsy). -/
def truthyOpt : Option String → Bool
  | none => false
  | some s => !(s == "")

/-- Python `a or b` on optional strings: a when truthy, else b. -/
def pyOrOpt (a b : Option String) : Option String :=
  if truthyOpt a then a else b

/-- The emotion derived in _handle_conversation_audio_transcript_completed:
the first truthy of the payload emotion tags, else keyword detection over
the transcript text when the text is nonempty. -/
def transcriptEmotion (d : EventData) : Option String :=
  if !(truthyOpt (pyOrOpt d.emotion (pyOrOpt d.user_emotion d.voice_emotion))) && d.content ≠ "" then
    detect_emotion_from_text d.content
  else
    pyOrOpt d.emotion (pyOrOpt d.user_emotion d.voice_emotion)

/-- Embeds the handler-name mangling in _on_ws_message:
event_type.replace of dots by underscores.  Python's single-character
replace is exactly this character-wise substitution. -/
def handlerKey (event_type : String) : String :=
  String.mk (event_type.data.map (fun c => if c = '.' then '_' else c))

/-- The _handle method suffixes defined by CozeRealtimeClient: the getattr
lookup in _on_ws_message finds a handler exactly when the mangled
handlerKey of the event type is in this list (several distinct event
types, such as "chat_updated" or "input_audio_buffer.speech.started",
mangle to the same key and are therefore dispatched to the same handler). -/
def handlerNames : List String :=
  ["chat_created", "chat_updated", "conversation_chat_created",
   "conversation_chat_in_progress", "conversation_audio_delta",
   "conversation_audio_sentence_start", "conversation_audio_completed",
   "conversation_message_delta", "conversation_message_completed",
   "conversation_chat_completed", "conversation_chat_failed",
   "conversation_chat_canceled", "error", "input_audio_buffer_completed",
   "input_audio_buffer_cleared", "input_audio_buffer_speech_started",
   "input_audio_buffer_speech_stopped", "conversation_audio_transcript_update",
   "conversation_audio_transcript_completed", "conversation_cleared",
   "conversation_chat_requires_action"]

/-- Body of each _handle method, selected by the mangled handler key. -/
def dispatchEvent (s : ClientState) (key : String) (d : EventData) :
    ClientState × List Output :=
  if key = "chat_created" then
    (s, [Output.debug ("Chat session created")] ++ sendEvent s ("chat.update") none)
  else if key = "chat_updated" then
    ({ s with is_configured := true, conversation_id := d.conversation_id },
     [Output.debug ("Chat configuration updated"), Output.readyEvent,
      Output.stateChange ("idle")])
  else if key = "conversation_chat_created" then
    ({ s with current_chat_id := d.id, is_processing := true },
     [Output.debug ("Conversation turn started"), Output.stateChange ("thinking")])
  else if key = "conversation_chat_in_progress" then
    ({ s with is_processing := true }, [Output.debug ("AI is processing")])
  else if key = "conversation_audio_delta" then
    let audio_b64 := if d.content ≠ "" then d.content else d.delta
    let aouts := if audio_b64 ≠ "" then [Output.audioEvent audio_b64] else []
    if s.is_ai_speaking then (s, aouts)
    else ({ s with is_ai_speaking := true },
          aouts ++ [Output.debug ("AI started speaking"), Output.stateChange ("speaking")])
  else if key = "conversation_audio_sentence_start" then
    if d.content ≠ "" then
      (s, (match detect_emotion_from_text d.content with
           | some e => [Output.emotionEvent e]
           | none => []) ++
          [Output.debug ("AI sentence"), Output.aiTranscript (d.content)])
    else (s, [])
  else if key = "conversation_audio_completed" then
    ({ s with is_ai_speaking := false, is_processing := false },
     [Output.debug ("AI audio completed"), Output.stateChange ("idle")])
  else if key = "conversation_message_delta" then
    if d.content ≠ "" then
      (s, (match detect_emotion_from_text d.content with
           | some e => [Output.emotionEvent e]
           | none => []) ++ [Output.debug ("AI text")])
    else (s, [])
  else if key = "conversation_message_completed" then
    (s, [Output.debug ("Message completed")])
  else if key = "conversation_chat_completed" then
    ({ s with is_processing := false, is_ai_speaking := false },
     [Output.debug ("Conversation turn completed"), Output.stateChange ("idle")])
  else if key = "conversation_chat_failed" then
    ({ s with is_processing := false },
     [Output.debug ("Conversation failed"), Output.errorEvent ("Conversation failed"),
      Output.stateChange ("idle")])
  else if key = "conversation_chat_canceled" then
    ({ s with is_ai_speaking := false, is_processing := false },
     [Output.debug ("Conversation interrupted")])
  else if key = "error" then
    (s, [Output.debug ("Error"), Output.errorEvent ("Error")])
  else if key = "input_audio_buffer_completed" then
    (s, [Output.debug ("Audio buffer submitted")])
  else if key = "input_audio_buffer_cleared" then
    (s, [Output.debug ("Audio buffer cleared")])
  else if key = "input_audio_buffer_speech_started" then
    let s1 := { s with is_user_speaking := true }
    if s1.is_ai_speaking then
      (((cancel_response s1).1),
       [Output.debug ("User started speaking"), Output.debug ("Interrupting AI")] ++
         (cancel_response s1).2 ++ [Output.stateChange ("listening")])
    else
      (s1, [Output.debug ("User started speaking"), Output.stateChange ("listening")])
  else if key = "input_audio_buffer_speech_stopped" then
    ({ s with is_user_speaking := false },
     [Output.debug ("User stopped speaking"), Output.stateChange ("thinking")])
  else if key = "conversation_audio_transcript_update" then
    if d.content ≠ "" then (s, [Output.transcript (d.content) false]) else (s, [])
  else if key = "conversation_audio_transcript_completed" then
    let eres :=
      if truthyOpt (transcriptEmotion d) then
        let e := (transcriptEmotion d).getD ("")
        ({ s with current_user_emotion := some e },
         update_tts_emotion s (get_empathetic_emotion e) ++ [Output.emotionEvent e])
      else
        (s, [Output.debug ("No emotion detected in user speech")])
    (eres.1,
     [Output.debug ("ASR data keys")] ++ eres.2 ++
       (if d.content ≠ "" then [Output.transcript (d.content) true] else []))
  else if key = "conversation_cleared" then
    (s, [Output.debug ("Conversation context cleared")])
  else if key = "conversation_chat_requires_action" then
    (s, [Output.debug ("Action required")])
  else
    (s, [])

/-- Embeds _on_ws_message: look up the handler attribute named by the
mangled event type (dots replaced by underscores); route to it when it
exists, otherwise log the unhandled event and do nothing. -/
def handleMessage (s : ClientState) (event_type : String) (d : EventData) :
    ClientState × List Output :=
  if handlerKey event_type ∈ handlerNames then dispatchEvent s (handlerKey event_type) d
  else (s, [Output.debug ("Unhandled event")])

/-- Embeds _on_ws_open: mark the transport connected. -/
def on_ws_open (s : ClientState) : ClientState :=
  { s with is_connected := true }

/-- Embeds _on_ws_close: clear the connection flags (and nothing else). -/
def on_ws_close (s : ClientState) : ClientState :=
  { s with is_connected := false, is_configured := false }

/-- Embeds _on_ws_error: log and surface the error through the error callback;
the session state is not modified. -/
def on_ws_error (s : ClientState) (error : String) : ClientState × List Output :=
  (s, [Output.debug error, Output.errorEvent error])

/-- disconnect: close the websocket and clear the connection flags. -/
def disconnect (s : ClientState) : ClientState :=
  { s with is_connected := false, is_configured := false }

/-- Recognizers over outputs used by the theorems. -/
def isCancelSend : Output → Bool
  | Output.send et _ => et == "conversation.chat.cancel"
  | _ => false

def isToneUpdate : Output → Bool
  | Output.send et (some _) => et == "chat.update"
  | _ => false

def isSendOutput : Output → Bool
  | Output.send _ _ => true
  | _ => false

def isErrorOutput : Output → Bool
  | Output.errorEvent _ => true
  | _ => false

def isDebugOutput : Output → Bool
  | Output.debug _ => true
  | _ => false

/-! ## Orchestrator wiring (main.py) -/

/-- Effect of one client output on the playback queue, per the callbacks in
main.py: on_audio forwards the frame to play_audio (playback active), and
on_state_change clears the queue when the new state is listening. -/
def orchestratorStep (q : List String) (o : Output) : List String :=
  match o with
  | Output.audioEvent a => q ++ [a]
  | Output.stateChange st => if st = "listening" then [] else q
  | _ => q

/-- The playback queue after the orchestrator consumes a handler's outputs. -/
def orchestratorQueue (q : List String) (outs : List Output) : List String :=
  outs.foldl orchestratorStep q

/-! ## Turn lifecycle ledger (spec data model, replayed over the handlers) -/

/-- Modelled from the spec: the Turn lifecycle created → in-progress →
(completed | failed | canceled) of the data model; the code itself keeps no
per-turn status, only current_chat_id, so this ledger replays the spec's
lifecycle over what the handlers do. -/
inductive TurnPhase where
  | created
  | inProgress
  | completed
  | failed
  | canceled
deriving DecidableEq, Repr

def TurnPhase.isTerminal : TurnPhase → Bool
  | TurnPhase.completed => true
  | TurnPhase.failed => true
  | TurnPhase.canceled => true
  | _ => false

/-- Insert or update a turn's phase in the ledger. -/
def ledgerUpdate (l : List (String × TurnPhase)) (id : String) (ph : TurnPhase) :
    List (String × TurnPhase) :=
  if l.any (fun x => x.1 = id) then
    l.map (fun x => if x.1 = id then (id, ph) else x)
  else
    l ++ [(id, ph)]

/-- Modelled from the spec: one replay step.  A chat.created event starts a
new turn with the id it carries and makes it current; the in_progress,
completed, failed and canceled handlers act on whichever turn is current
(they never read an id from the payload). -/
def turnStep (st : List (String × TurnPhase) × Option String) (ev : String × Option String) :
    List (String × TurnPhase) × Option String :=
  if ev.1 = "conversation.chat.created" then
    match ev.2 with
    | some id => (ledgerUpdate st.1 id TurnPhase.created, some id)
    | none => st
  else if ev.1 = "conversation.chat.in_progress" then
    match st.2 with
    | some id => (ledgerUpdate st.1 id TurnPhase.inProgress, st.2)
    | none => st
  else if ev.1 = "conversation.chat.completed" then
    match st.2 with
    | some id => (ledgerUpdate st.1 id TurnPhase.completed, st.2)
    | none => st
  else if ev.1 = "conversation.chat.failed" then
    match st.2 with
    | some id => (ledgerUpdate st.1 id TurnPhase.failed, st.2)
    | none => st
  else if ev.1 = "conversation.chat.canceled" then
    match st.2 with
    | some id => (ledgerUpdate st.1 id TurnPhase.canceled, st.2)
    | none => st
  else st

/-- Replay a trace of (event type, payload id) pairs from an empty ledger. -/
def turnReplay (evs : List (String × Option String)) :
    List (String × TurnPhase) × Option String :=
  evs.foldl turnStep ([], none)

/-- Number of non-terminal turns in a ledger. -/
def nonTerminalCount (l : List (String × TurnPhase)) : Nat :=
  (l.filter (fun x => !(x.2.isTerminal))).length

/-! ## Playback pipeline (audio_handler.py, AudioHandler) -/

/-- Operations on the playback side: play_audio, one iteration of
_playback_loop that obtains a frame, and clear_playback_queue. -/
inductive POp where
  | enq (f : Nat)
  | drain
  | flush
deriving DecidableEq, Repr

/-- Playback queue, frames written to the output device so far, and the
is_playing flag. -/
structure PState where
  queue : List Nat
  written : List Nat
  is_playing : Bool
deriving DecidableEq, Repr

/-- One step: play_audio enqueues only while playing; a drain iteration
writes the head of the queue to the device while playing (a timeout on an
empty queue does nothing); clear_playback_queue discards all queued frames. -/
def pstep (st : PState) : POp → PState
  | POp.enq f => if st.is_playing then { st with queue := st.queue ++ [f] } else st
  | POp.drain =>
    if st.is_playing then
      match st.queue with
      | [] => st
      | f :: rest => { st with queue := rest, written := st.written ++ [f] }
    else st
  | POp.flush => { st with queue := [] }

/-- Run a sequence of playback operations. -/
def prun (st : PState) (ops : List POp) : PState :=
  ops.foldl pstep st

/-! ## Audio level monitor (audio_handler.py, AudioLevelMonitor) -/

/-- Square of a sample as a real number (s * s in the RMS sum). -/
def sqR (s : ℤ) : ℝ := ((s : ℝ)) ^ 2

/-- The normalized raw level of a frame: RMS over all samples divided by
16384 and clamped to 1, with the empty frame guarded to 0 (the `if samples`
check in update). -/
noncomputable def rawLevel (samples : List ℤ) : ℝ :=
  if samples = [] then 0
  else min 1 (Real.sqrt (((samples.map sqR).sum) / (samples.length : ℝ)) / 16384)

/-- AudioLevelMonitor.update: exponential smoothing of the raw level
against the previous output. -/
noncomputable def monitorUpdate (smoothing current_level : ℝ) (samples : List ℤ) : ℝ :=
  smoothing * current_level + (1 - smoothing) * rawLevel samples

/-- AudioLevelMonitor.__init__ sets current_level to 0. -/
def monitorInitLevel : ℝ := 0

/-- AudioLevelMonitor.reset sets current_level to 0. -/
def monitorResetLevel : ℝ := 0

/-- The level after a sequence of update calls starting from the freshly
constructed monitor. -/
noncomputable def monitorRun (smoothing : ℝ) (frames : List (List ℤ)) : ℝ :=
  frames.foldl (monitorUpdate smoothing) monitorInitLevel

/-- The level sequence under repeated updates with a fixed all-zero frame
of k samples, starting from level L. -/
noncomputable def zeroFrameIter (smoothing L : ℝ) (k : ℕ) : ℕ → ℝ
  | 0 => L
  | n + 1 => monitorUpdate smoothing (zeroFrameIter smoothing L k n) (List.replicate k 0)

/-! ## Concrete session states used by counterexamples -/

/-- A ready session with a non-terminal turn t1 in progress. -/
def c2State : ClientState :=
  { is_connected := true, is_configured := true, conversation_id := some ("conv"),
    current_chat_id := some ("t1"), is_user_speaking := false, is_ai_speaking := false,
    is_processing := true, current_user_emotion := none }

/-- A ready session mid-turn, with the assistant speaking and a recorded
user emotion. -/
def c6State : ClientState :=
  { is_connected := true, is_configured := true, conversation_id := some ("conv"),
    current_chat_id := some ("t1"), is_user_speaking := true, is_ai_speaking := true,
    is_processing := true, current_user_emotion := some ("happy") }

/-- A connected, configured session with the assistant mid-utterance. -/
def c1State : ClientState :=
  { is_connected := true, is_configured := true, conversation_id := some ("conv"),
    current_chat_id := some ("t1"), is_user_speaking := false, is_ai_speaking := true,
    is_processing := true, current_user_emotion := none }

/-- An inbound event with no payload fields set. -/
def emptyEvent : EventData := {}

/-- A connected session at rest, used to exercise the transcript handler. -/
def c5State : ClientState :=
  { is_connected := true, is_configured := true, conversation_id := some ("conv"),
    current_chat_id := none, is_user_speaking := false, is_ai_speaking := false,
    is_processing := false, current_user_emotion := none }

/-- A final-transcript payload carrying a remote emotion tag. -/
def c5Event : EventData :=
  { content := ("i am upset"), emotion := some ("angry") }

/-! ## Theorems -/

/-- Python max over the four-entry scores dict picks the first entry, in
insertion order, whose score equals the maximum. -/
theorem pyMax_firstMax (h s a p : ℕ) :
    (if 1 ≤ (pyMaxByScore [(("happy"), h), (("sad"), s), (("angry"), a), (("surprised"), p)]).2 then
       some ((pyMaxByScore [(("happy"), h), (("sad"), s), (("angry"), a), (("surprised"), p)]).1)
     else none)
      = (if 1 ≤ max (max h s) (max a p) then
           if h = max (max h s) (max a p) then some ("happy")
           else if s = max (max h s) (max a p) then some ("sad")
           else if a = max (max h s) (max a p) then some ("angry")
           else some ("surprised")
         else none) := by
  simp only [pyMaxByScore, List.foldl]
  split_ifs <;> first | rfl | (exfalso; omega)

/-- Claim C4: emotion detection counts keyword matches in the lowercased
text for happy, sad, angry and surprised, returns the category with the
highest count when that count is at least 1, breaking ties by the fixed
order happy, sad, angry, surprised (first maximum wins), and returns no
emotion otherwise; in particular "haha" yields happy, "对不起" yields sad,
and text matching no keyword set yields no emotion. -/
theorem C4_emotion_detection :
    (∀ text : String, detect_emotion_from_text text = specDetectEmotion text)
    ∧ detect_emotion_from_text ("haha") = some ("happy")
    ∧ detect_emotion_from_text ("对不起") = some ("sad")
    ∧ detect_emotion_from_text ("ok") = none := by
  refine ⟨fun text => ?_, by decide, by decide, by decide⟩
  have h := pyMax_firstMax (keywordScore happy_keywords (lowerChars text))
    (keywordScore sad_keywords (lowerChars text))
    (keywordScore angry_keywords (lowerChars text))
    (keywordScore surprised_keywords (lowerChars text))
  simpa only [detect_emotion_from_text, specDetectEmotion, specMaxScore, emotionScores] using h

/-- The raw level of a frame is never negative. -/
theorem rawLevel_nonneg (samples : List ℤ) : 0 ≤ rawLevel samples := by
  unfold rawLevel
  split_ifs with h
  · norm_num
  · exact le_min (by norm_num) (by positivity)

/-- The raw level of a frame never exceeds 1 (the clamp). -/
theorem rawLevel_le_one (samples : List ℤ) : rawLevel samples ≤ 1 := by
  unfold rawLevel
  split_ifs with h
  · norm_num
  · exact min_le_left _ _

/-- One update keeps the smoothed level inside the unit interval. -/
theorem monitorUpdate_mem_unit (smoothing old : ℝ) (samples : List ℤ)
    (h0 : 0 ≤ smoothing) (h1 : smoothing ≤ 1) (ho0 : 0 ≤ old) (ho1 : old ≤ 1) :
    0 ≤ monitorUpdate smoothing old samples ∧ monitorUpdate smoothing old samples ≤ 1 := by
  have hr0 := rawLevel_nonneg samples
  have hr1 := rawLevel_le_one samples
  have hs : 0 ≤ 1 - smoothing := by linarith
  unfold monitorUpdate
  constructor
  · have t1 : 0 ≤ smoothing * old := mul_nonneg h0 ho0
    have t2 : 0 ≤ (1 - smoothing) * rawLevel samples := mul_nonneg hs hr0
    linarith
  · have t1 : smoothing * old ≤ smoothing * 1 := mul_le_mul_of_nonneg_left ho1 h0
    have t2 : (1 - smoothing) * rawLevel samples ≤ (1 - smoothing) * 1 :=
      mul_le_mul_of_nonneg_left hr1 hs
    linarith

/-- Folding updates over any frame list keeps the level in the unit
interval. -/
theorem monitorFold_mem_unit (smoothing : ℝ) (frames : List (List ℤ)) (x : ℝ)
    (h0 : 0 ≤ smoothing) (h1 : smoothing ≤ 1) (hx0 : 0 ≤ x) (hx1 : x ≤ 1) :
    0 ≤ frames.foldl (monitorUpdate smoothing) x
    ∧ frames.foldl (monitorUpdate smoothing) x ≤ 1 := by
  induction frames generalizing x with
  | nil => exact ⟨hx0, hx1⟩
  | cons f t ih =>
    have h := monitorUpdate_mem_unit smoothing x f h0 h1 hx0 hx1
    simpa only [List.foldl_cons] using ih (monitorUpdate smoothing x f) h.1 h.2

/-- Claim C9: for every smoothing factor in the unit interval the monitor's
level stays in the unit interval: the raw value is clamped into it, the
initial and reset levels are 0, one update maps unit-interval level to
unit-interval level, and any run of updates from the fresh monitor stays
inside it. -/
theorem C9_level_in_unit_interval (smoothing old : ℝ) (samples : List ℤ)
    (frames : List (List ℤ))
    (h0 : 0 ≤ smoothing) (h1 : smoothing ≤ 1) (ho0 : 0 ≤ old) (ho1 : old ≤ 1) :
    (0 ≤ monitorUpdate smoothing old samples ∧ monitorUpdate smoothing old samples ≤ 1)
    ∧ (0 ≤ monitorRun smoothing frames ∧ monitorRun smoothing frames ≤ 1)
    ∧ monitorInitLevel = 0 ∧ monitorResetLevel = 0
    ∧ (0 ≤ rawLevel samples ∧ rawLevel samples ≤ 1) := by
  refine ⟨monitorUpdate_mem_unit smoothing old samples h0 h1 ho0 ho1, ?_, rfl, rfl,
    rawLevel_nonneg samples, rawLevel_le_one samples⟩
  exact monitorFold_mem_unit smoothing frames monitorInitLevel h0 h1 (by norm_num [monitorInitLevel])
    (by norm_num [monitorInitLevel])

/-- Witness for C9 at smoothing 1, old level 1, an empty frame and no run. -/
theorem C9_witness :
    (0:ℝ) ≤ 1 ∧ (1:ℝ) ≤ 1 ∧
    ((0 ≤ monitorUpdate 1 1 [] ∧ monitorUpdate 1 1 [] ≤ 1)
     ∧ (0 ≤ monitorRun 1 [] ∧ monitorRun 1 [] ≤ 1)
     ∧ monitorInitLevel = 0 ∧ monitorResetLevel = 0
     ∧ (0 ≤ rawLevel [] ∧ rawLevel [] ≤ 1)) :=
  ⟨by norm_num, by norm_num,
   C9_level_in_unit_interval 1 1 [] [] (by norm_num) (by norm_num) (by norm_num) (by norm_num)⟩

/-- Claim C10: an update on the empty frame (zero samples) takes the
guarded branch, so the division by the sample count is never evaluated, the
raw level is 0, and the call returns the smoothing factor times the
previous level. -/
theorem C10_empty_frame_safe (smoothing current_level : ℝ) :
    rawLevel [] = 0
    ∧ monitorUpdate smoothing current_level [] = smoothing * current_level := by
  constructor
  · simp [rawLevel]
  · simp [monitorUpdate, rawLevel]

/-- Sum of squares over a constant frame. -/
theorem sq_map_replicate (m : ℕ) (c : ℤ) :
    ((List.replicate m c).map sqR).sum = (m : ℝ) * ((c : ℝ)) ^ 2 := by
  rw [List.map_replicate, List.sum_replicate, nsmul_eq_mul, sqR]

/-- Updating with an all-zero frame contributes a raw level of exactly 0. -/
theorem rawLevel_replicate_zero (k : ℕ) : rawLevel (List.replicate k 0) = 0 := by
  cases k with
  | zero => simp [rawLevel]
  | succ n =>
    have hne : List.replicate (n + 1) (0 : ℤ) ≠ [] := by simp
    unfold rawLevel
    rw [if_neg hne, sq_map_replicate]
    norm_num

/-- A frame of full-scale samples has raw level exactly 1 after the clamp. -/
theorem rawLevel_full_scale (k : ℕ) :
    rawLevel (List.replicate (k + 1) (-32768)) = 1 := by
  have hne : List.replicate (k + 1) (-32768 : ℤ) ≠ [] := by simp
  unfold rawLevel
  rw [if_neg hne, sq_map_replicate, List.length_replicate]
  push_cast
  have hk : ((k : ℝ) + 1) ≠ 0 := by positivity
  rw [mul_comm, mul_div_assoc, div_self hk, mul_one]
  have hsq : ((-32768 : ℝ)) ^ 2 = 32768 ^ 2 := by norm_num
  rw [hsq, Real.sqrt_sq (by norm_num : (0:ℝ) ≤ 32768)]
  have hdiv : (32768 : ℝ) / 16384 = 2 := by norm_num
  rw [hdiv]
  exact min_eq_left (by norm_num)

/-- Repeated updates with an all-zero frame decay the level geometrically. -/
theorem zeroFrameIter_eq (smoothing L : ℝ) (k n : ℕ) :
    zeroFrameIter smoothing L k n = smoothing ^ n * L := by
  induction n with
  | zero => simp [zeroFrameIter]
  | succ m ih =>
    simp only [zeroFrameIter, monitorUpdate, ih, rawLevel_replicate_zero, mul_zero, add_zero]
    ring

/-- Claim C8: update returns the exponential smoothing of the raw level,
the raw level of a nonempty frame is the RMS divided by 16384 clamped to 1,
a full-scale frame has raw level exactly 1, and under repeated all-zero
frames the level is a geometric sequence converging to 0. -/
theorem C8_level_monitor (smoothing L : ℝ) (k n : ℕ)
    (h0 : 0 ≤ smoothing) (h1 : smoothing < 1) :
    (∀ (old : ℝ) (samples : List ℤ),
        monitorUpdate smoothing old samples
          = smoothing * old + (1 - smoothing) * rawLevel samples)
    ∧ (∀ samples : List ℤ, samples ≠ [] →
        rawLevel samples
          = min 1 (Real.sqrt (((samples.map sqR).sum)
              / (samples.length : ℝ)) / 16384))
    ∧ rawLevel (List.replicate (k + 1) (-32768)) = 1
    ∧ zeroFrameIter smoothing L k n = smoothing ^ n * L
    ∧ Filter.Tendsto (fun m => zeroFrameIter smoothing L k m) Filter.atTop (nhds 0) := by
  refine ⟨fun old samples => rfl, fun samples hs => by rw [rawLevel, if_neg hs],
    rawLevel_full_scale k, zeroFrameIter_eq smoothing L k n, ?_⟩
  have hp : Filter.Tendsto (fun m : ℕ => smoothing ^ m) Filter.atTop (nhds 0) :=
    tendsto_pow_atTop_nhds_zero_of_lt_one h0 h1
  have hm := hp.mul_const L
  rw [zero_mul] at hm
  refine Filter.Tendsto.congr (fun m => ?_) hm
  exact (zeroFrameIter_eq smoothing L k m).symm

/-- Witness for C8 at the source's default smoothing 0.3, initial level 1,
one-sample frames and two steps. -/
theorem C8_witness :
    (0:ℝ) ≤ 3 / 10 ∧ (3:ℝ) / 10 < 1 ∧
    ((∀ (old : ℝ) (samples : List ℤ),
        monitorUpdate (3 / 10) old samples
          = (3 / 10) * old + (1 - 3 / 10) * rawLevel samples)
     ∧ (∀ samples : List ℤ, samples ≠ [] →
        rawLevel samples
          = min 1 (Real.sqrt (((samples.map sqR).sum)
              / (samples.length : ℝ)) / 16384))
     ∧ rawLevel (List.replicate (0 + 1) (-32768)) = 1
     ∧ zeroFrameIter (3 / 10) 1 0 2 = (3 / 10) ^ 2 * 1
     ∧ Filter.Tendsto (fun m => zeroFrameIter (3 / 10) 1 0 m) Filter.atTop (nhds 0)) :=
  ⟨by norm_num, by norm_num, C8_level_monitor (3 / 10) 1 0 2 (by norm_num) (by norm_num)⟩

/-- Running a concatenation of playback operations runs them in sequence. -/
theorem prun_append (st : PState) (a b : List POp) :
    prun st (a ++ b) = prun (prun st a) b := by
  simp only [prun, List.foldl_append]

/-- Enqueueing a batch of frames while playback is active appends them to
the queue in order. -/
theorem prun_enqs (fs : List Nat) (q w : List Nat) :
    prun { queue := q, written := w, is_playing := true } (fs.map POp.enq)
      = { queue := q ++ fs, written := w, is_playing := true } := by
  induction fs generalizing q with
  | nil => simp [prun]
  | cons f t ih =>
    have h1 : pstep { queue := q, written := w, is_playing := true } (POp.enq f)
        = { queue := q ++ [f], written := w, is_playing := true } := by
      simp [pstep]
    have h2 : prun { queue := q, written := w, is_playing := true } ((POp.enq f) :: t.map POp.enq)
        = prun { queue := q ++ [f], written := w, is_playing := true } (t.map POp.enq) := by
      simp only [prun, List.foldl_cons, h1]
    simp only [List.map_cons, h2, ih (q ++ [f]), List.append_assoc, List.singleton_append]

/-- Draining as many iterations as there are queued frames writes them all
to the device in insertion order and empties the queue. -/
theorem prun_drains (q w : List Nat) :
    prun { queue := q, written := w, is_playing := true } (List.replicate q.length POp.drain)
      = { queue := [], written := w ++ q, is_playing := true } := by
  induction q generalizing w with
  | nil => simp [prun]
  | cons f rest ih =>
    have h1 : pstep { queue := f :: rest, written := w, is_playing := true } POp.drain
        = { queue := rest, written := w ++ [f], is_playing := true } := by
      simp [pstep]
    have h2 : prun { queue := f :: rest, written := w, is_playing := true }
          (POp.drain :: List.replicate rest.length POp.drain)
        = prun { queue := rest, written := w ++ [f], is_playing := true }
          (List.replicate rest.length POp.drain) := by
      simp only [prun, List.foldl_cons, h1]
    simp only [List.length_cons, List.replicate_succ, h2, ih (w ++ [f]),
      List.append_assoc, List.singleton_append]

/-- A frame absent from both the queue and the written log, and never
enqueued again, never reaches the queue or the device. -/
theorem prun_not_written (ops : List POp) (st : PState) (f : Nat)
    (hq : f ∉ st.queue) (hw : f ∉ st.written) (hops : POp.enq f ∉ ops) :
    f ∉ (prun st ops).queue ∧ f ∉ (prun st ops).written := by
  induction ops generalizing st with
  | nil => exact ⟨hq, hw⟩
  | cons op t ih =>
    have ht : POp.enq f ∉ t := fun h => hops (List.mem_cons_of_mem _ h)
    have step : f ∉ (pstep st op).queue ∧ f ∉ (pstep st op).written := by
      cases op with
      | enq g =>
        have hg : g ≠ f := by
          intro h
          exact hops (by rw [h]; exact List.mem_cons_self _ _)
        by_cases hp : st.is_playing
        · constructor
          · simp only [pstep, hp, if_true, List.mem_append, List.mem_singleton]
            rintro (h | h)
            · exact hq h
            · exact hg h.symm
          · simpa [pstep, hp] using hw
        · simp only [pstep, hp, if_false]
          exact ⟨hq, hw⟩
      | drain =>
        by_cases hp : st.is_playing
        · cases hqm : st.queue with
          | nil =>
            simp only [pstep, hp, if_true, hqm]
            exact ⟨by rw [hqm] at hq; exact hq, hw⟩
          | cons h0 rest =>
            rw [hqm] at hq
            have hfh : f ≠ h0 := fun h => hq (h ▸ List.mem_cons_self _ _)
            have hfr : f ∉ rest := fun h => hq (List.mem_cons_of_mem _ h)
            simp only [pstep, hp, if_true, hqm]
            constructor
            · exact hfr
            · simp only [List.mem_append, List.mem_singleton]
              rintro (h | h)
              · exact hw h
              · exact hfh h
        · simp only [pstep, hp, if_false]
          exact ⟨hq, hw⟩
      | flush =>
        simp only [pstep]
        exact ⟨List.not_mem_nil f, hw⟩
    have hr : prun st (op :: t) = prun (pstep st op) t := by
      simp only [prun, List.foldl_cons]
    rw [hr]
    exact ih (pstep st op) step.1 step.2 ht

/-- Claim C3: frames enqueued via play_audio while playback is active are
dequeued and written to the output device in insertion order and exactly
once (draining as many loop iterations as there are frames yields the
written log extended by precisely the queued frames, in order), and a
frame still queued at the moment of a clear_playback_queue, not enqueued
again afterwards, is never written. -/
theorem C3_playback_order_and_flush (q w fs : List Nat) (f : Nat) (st : PState) (ops : List POp)
    (_hq : f ∈ st.queue) (hw : f ∉ st.written) (hops : POp.enq f ∉ ops) :
    prun { queue := q, written := w, is_playing := true }
        (fs.map POp.enq ++ List.replicate (q ++ fs).length POp.drain)
      = { queue := [], written := w ++ (q ++ fs), is_playing := true }
    ∧ f ∉ (prun (pstep st POp.flush) ops).written := by
  constructor
  · rw [prun_append, prun_enqs, prun_drains]
  · have hq2 : f ∉ (pstep st POp.flush).queue := by
      simp [pstep]
    have hw2 : f ∉ (pstep st POp.flush).written := by
      simpa [pstep] using hw
    exact (prun_not_written ops (pstep st POp.flush) f hq2 hw2 hops).2

/-- Witness for C3: queue [1, 2] plus a later frame 3 are written in order
1, 2, 3; frame 7, queued at the moment of the flush, is never written even
though draining continues and another frame is enqueued. -/
theorem C3_witness :
    7 ∈ ({ queue := [7], written := [], is_playing := true } : PState).queue
    ∧ 7 ∉ ({ queue := [7], written := [], is_playing := true } : PState).written
    ∧ POp.enq 7 ∉ [POp.drain, POp.enq 8, POp.drain, POp.drain]
    ∧ (prun { queue := [1, 2], written := [], is_playing := true }
          ([3].map POp.enq ++ List.replicate ([1, 2] ++ [3]).length POp.drain)
        = { queue := [], written := [] ++ ([1, 2] ++ [3]), is_playing := true }
       ∧ 7 ∉ (prun (pstep { queue := [7], written := [], is_playing := true } POp.flush)
            [POp.drain, POp.enq 8, POp.drain, POp.drain]).written) :=
  ⟨by decide, by decide, by decide,
   C3_playback_order_and_flush [1, 2] [] [3] 7
     { queue := [7], written := [], is_playing := true }
     [POp.drain, POp.enq 8, POp.drain, POp.drain] (by decide) (by decide) (by decide)⟩

/-- Routing a speech-started event reaches its handler. -/
theorem hm_speech_started (s : ClientState) (d : EventData) :
    handleMessage s ("input_audio_buffer.speech_started") d
      = (if s.is_ai_speaking then
           (((cancel_response { s with is_user_speaking := true }).1),
            [Output.debug ("User started speaking"), Output.debug ("Interrupting AI")] ++
              (cancel_response { s with is_user_speaking := true }).2 ++
              [Output.stateChange ("listening")])
         else
           ({ s with is_user_speaking := true },
            [Output.debug ("User started speaking"), Output.stateChange ("listening")])) := rfl

/-- Routing a turn-created event reaches its handler. -/
theorem hm_chat_created (s : ClientState) (d : EventData) :
    handleMessage s ("conversation.chat.created") d
      = ({ s with current_chat_id := d.id, is_processing := true },
         [Output.debug ("Conversation turn started"), Output.stateChange ("thinking")]) := rfl

/-- Routing a requires-action event reaches its handler, which only logs. -/
theorem hm_requires_action (s : ClientState) (d : EventData) :
    handleMessage s ("conversation.chat.requires_action") d
      = (s, [Output.debug ("Action required")]) := rfl

/-- Routing a final-transcript event reaches its handler. -/
theorem hm_transcript_completed (s : ClientState) (d : EventData) :
    handleMessage s ("conversation.audio_transcript.completed") d
      = ((if truthyOpt (transcriptEmotion d) then
            ({ s with current_user_emotion := some ((transcriptEmotion d).getD ("")) },
             update_tts_emotion s (get_empathetic_emotion ((transcriptEmotion d).getD (""))) ++
               [Output.emotionEvent ((transcriptEmotion d).getD (""))])
          else
            (s, [Output.debug ("No emotion detected in user speech")])).1,
         [Output.debug ("ASR data keys")] ++
           (if truthyOpt (transcriptEmotion d) then
              ({ s with current_user_emotion := some ((transcriptEmotion d).getD ("")) },
               update_tts_emotion s (get_empathetic_emotion ((transcriptEmotion d).getD (""))) ++
                 [Output.emotionEvent ((transcriptEmotion d).getD (""))])
            else
              (s, [Output.debug ("No emotion detected in user speech")])).2 ++
           (if d.content ≠ "" then [Output.transcript (d.content) true] else [])) := rfl

/-- Claim C1: a speech-started event while the assistant is speaking sends
exactly one conversation.chat.cancel command, clears is_ai_speaking, sets
is_user_speaking, and emits the listening state change on which the
orchestrator empties the playback queue; when the assistant is not
speaking, no cancel command is sent. -/
theorem C1_barge_in (s : ClientState) (d : EventData) (q : List String)
    (hc : s.is_connected = true) :
    (s.is_ai_speaking = true →
       ((handleMessage s ("input_audio_buffer.speech_started") d).2.filter isCancelSend).length = 1
       ∧ (handleMessage s ("input_audio_buffer.speech_started") d).1.is_ai_speaking = false
       ∧ (handleMessage s ("input_audio_buffer.speech_started") d).1.is_user_speaking = true
       ∧ Output.stateChange ("listening")
           ∈ (handleMessage s ("input_audio_buffer.speech_started") d).2
       ∧ orchestratorQueue q (handleMessage s ("input_audio_buffer.speech_started") d).2 = [])
    ∧ (s.is_ai_speaking = false →
       ((handleMessage s ("input_audio_buffer.speech_started") d).2.filter isCancelSend).length = 0
       ∧ (handleMessage s ("input_audio_buffer.speech_started") d).1.is_user_speaking = true
       ∧ Output.stateChange ("listening")
           ∈ (handleMessage s ("input_audio_buffer.speech_started") d).2) := by
  rw [hm_speech_started]
  constructor
  · intro hai
    simp [hai, cancel_response, sendEvent, hc, isCancelSend,
      orchestratorQueue, orchestratorStep]
  · intro hai
    simp [hai, isCancelSend, orchestratorQueue, orchestratorStep]

/-- Witness for C1 on a connected session with the assistant speaking. -/
theorem C1_witness :
    c1State.is_connected = true
    ∧ ((c1State.is_ai_speaking = true →
        ((handleMessage c1State ("input_audio_buffer.speech_started") emptyEvent).2.filter
            isCancelSend).length = 1
        ∧ (handleMessage c1State ("input_audio_buffer.speech_started")
            emptyEvent).1.is_ai_speaking = false
        ∧ (handleMessage c1State ("input_audio_buffer.speech_started")
            emptyEvent).1.is_user_speaking = true
        ∧ Output.stateChange ("listening")
            ∈ (handleMessage c1State ("input_audio_buffer.speech_started") emptyEvent).2
        ∧ orchestratorQueue [("frame1"), ("frame2")]
            (handleMessage c1State ("input_audio_buffer.speech_started") emptyEvent).2 = [])
       ∧ (c1State.is_ai_speaking = false →
          ((handleMessage c1State ("input_audio_buffer.speech_started") emptyEvent).2.filter
              isCancelSend).length = 0
          ∧ (handleMessage c1State ("input_audio_buffer.speech_started")
              emptyEvent).1.is_user_speaking = true
          ∧ Output.stateChange ("listening")
              ∈ (handleMessage c1State ("input_audio_buffer.speech_started") emptyEvent).2)) :=
  ⟨rfl, C1_barge_in c1State emptyEvent [("frame1"), ("frame2")] rfl⟩

/-- Claim C2 counterexample: with turn t1 non-terminal (is_processing set,
current turn t1), handling a turn-created event for t2 adopts t2 (the new
turn is not rejected), sends no command at all (the prior turn is not
terminated), and replaying the two created events under the spec's turn
lifecycle leaves two concurrently non-terminal turns. -/
theorem C2_counterexample :
    ((handleMessage c2State ("conversation.chat.created")
        { id := some ("t2") }).1.current_chat_id ≠ c2State.current_chat_id)
    ∧ (handleMessage c2State ("conversation.chat.created")
        { id := some ("t2") }).1.current_chat_id = some ("t2")
    ∧ c2State.is_processing = true
    ∧ ((handleMessage c2State ("conversation.chat.created")
        { id := some ("t2") }).2.filter isCancelSend) = []
    ∧ ((handleMessage c2State ("conversation.chat.created")
        { id := some ("t2") }).2.filter isSendOutput) = []
    ∧ nonTerminalCount ((turnReplay [(("conversation.chat.created"), some ("t1")),
        (("conversation.chat.created"), some ("t2"))]).1) = 2 := by
  decide

/-- Claim C2 amended: the client keeps a single current-turn slot, and a
turn-created event deterministically overwrites it with the new turn id and
sets is_processing, sending no command: the new turn is adopted rather than
rejected, and the prior turn is abandoned without a terminal transition. -/
theorem C2_turn_created_overwrites (s : ClientState) (d : EventData) :
    (handleMessage s ("conversation.chat.created") d).1
      = { s with current_chat_id := d.id, is_processing := true }
    ∧ ((handleMessage s ("conversation.chat.created") d).2.filter isSendOutput) = []
    ∧ ((handleMessage s ("conversation.chat.created") d).2.filter isCancelSend) = [] := by
  rw [hm_chat_created]
  exact ⟨rfl, rfl, rfl⟩

/-- Claim C6 counterexample: a transport close does not discard the
in-flight turn state (the turn id, speaking flags, processing flag and last
user emotion all survive), a transport error does not even transition to
disconnected, and after a reconnect the prior turn id and emotion are still
present. -/
theorem C6_counterexample :
    (¬((on_ws_close c6State).current_chat_id = none
       ∧ (on_ws_close c6State).is_ai_speaking = false
       ∧ (on_ws_close c6State).is_user_speaking = false
       ∧ (on_ws_close c6State).is_processing = false
       ∧ (on_ws_close c6State).current_user_emotion = none))
    ∧ (on_ws_error c6State ("boom")).1.is_connected = true
    ∧ (on_ws_open (on_ws_close c6State)).current_chat_id = some ("t1")
    ∧ (on_ws_open (on_ws_close c6State)).current_user_emotion = some ("happy")
    ∧ (on_ws_open (on_ws_close c6State)).is_ai_speaking = true := by
  decide

/-- Claim C6 amended: a transport close (and disconnect) clears only the
connection flags, a transport error changes no session state at all, and a
reconnect after a close carries the turn id, speaking flags, processing
flag and last user emotion over unchanged from the prior session. -/
theorem C6_close_clears_connection_only (s : ClientState) (err : String) :
    on_ws_close s = { s with is_connected := false, is_configured := false }
    ∧ (on_ws_error s err).1 = s
    ∧ disconnect s = { s with is_connected := false, is_configured := false }
    ∧ (on_ws_open (disconnect (on_ws_close s))).current_chat_id = s.current_chat_id
    ∧ (on_ws_open (disconnect (on_ws_close s))).is_ai_speaking = s.is_ai_speaking
    ∧ (on_ws_open (disconnect (on_ws_close s))).is_user_speaking = s.is_user_speaking
    ∧ (on_ws_open (disconnect (on_ws_close s))).is_processing = s.is_processing
    ∧ (on_ws_open (disconnect (on_ws_close s))).current_user_emotion
        = s.current_user_emotion := by
  exact ⟨rfl, rfl, rfl, rfl, rfl, rfl, rfl, rfl⟩

/-- Claim C7: a message whose event type is unknown to the dispatch (its
dot-to-underscore mangled name matches no _handle method, the getattr
lookup of the source), or a requires-action event, leaves the session state
unchanged and produces only debug logging: nothing reaches the error
callback and no command is sent. -/
theorem C7_unknown_events (s : ClientState) (event_type : String) (d : EventData)
    (h : handlerKey event_type ∉ handlerNames
       ∨ event_type = "conversation.chat.requires_action") :
    (handleMessage s event_type d).1 = s
    ∧ (∀ o ∈ (handleMessage s event_type d).2, isDebugOutput o = true)
    ∧ ((handleMessage s event_type d).2.filter isErrorOutput) = []
    ∧ ((handleMessage s event_type d).2.filter isSendOutput) = [] := by
  rcases h with h | h
  · unfold handleMessage
    rw [if_neg h]
    refine ⟨rfl, ?_, rfl, rfl⟩
    intro o ho
    simp only [List.mem_singleton] at ho
    rw [ho]
    rfl
  · subst h
    rw [hm_requires_action]
    refine ⟨rfl, ?_, rfl, rfl⟩
    intro o ho
    simp only [List.mem_singleton] at ho
    rw [ho]
    rfl

/-- Witness for C7 on the unhandled event type session.created, whose
mangled name session_created matches no handler. -/
theorem C7_witness :
    (handlerKey ("session.created") ∉ handlerNames
      ∨ ("session.created") = "conversation.chat.requires_action")
    ∧ ((handleMessage c5State ("session.created") emptyEvent).1 = c5State
       ∧ (∀ o ∈ (handleMessage c5State ("session.created") emptyEvent).2,
            isDebugOutput o = true)
       ∧ ((handleMessage c5State ("session.created") emptyEvent).2.filter isErrorOutput) = []
       ∧ ((handleMessage c5State ("session.created") emptyEvent).2.filter isSendOutput) = []) :=
  ⟨Or.inl (by decide),
   C7_unknown_events c5State ("session.created") emptyEvent (Or.inl (by decide))⟩

/-- The Coze-name remapping is the identity on the range of the empathy
map (which never produces "surprised"). -/
theorem coze_name_of_empathetic (e : String) :
    cozeEmotionName (lowerString (get_empathetic_emotion e)) = get_empathetic_emotion e := by
  unfold get_empathetic_emotion
  split_ifs <;> decide

/-- Claim C5: on a final user transcript, a remote emotion tag is used when
present, otherwise keyword detection runs on the transcript text; whenever
an emotion e results, the handler records it as the last user emotion,
emits an emotion event carrying e, and sends exactly one tone-tuning
update, whose emotion is the empathetic mapping of e (happy→happy,
sad→sad, angry→neutral, surprised→happy, neutral→neutral). -/
theorem C5_transcript_completed (s : ClientState) (d : EventData) (e : String)
    (hc : s.is_connected = true) (he : transcriptEmotion d = some e) (hne : e ≠ "") :
    (handleMessage s ("conversation.audio_transcript.completed") d).1.current_user_emotion
        = some e
    ∧ Output.emotionEvent e
        ∈ (handleMessage s ("conversation.audio_transcript.completed") d).2
    ∧ ((handleMessage s ("conversation.audio_transcript.completed") d).2.filter
        isToneUpdate).length = 1
    ∧ Output.send ("chat.update") (some (get_empathetic_emotion e))
        ∈ (handleMessage s ("conversation.audio_transcript.completed") d).2
    ∧ (truthyOpt d.emotion = true → transcriptEmotion d = d.emotion)
    ∧ (d.emotion = none → d.user_emotion = none → d.voice_emotion = none →
        d.content ≠ "" → transcriptEmotion d = detect_emotion_from_text (d.content))
    ∧ get_empathetic_emotion ("happy") = ("happy")
    ∧ get_empathetic_emotion ("sad") = ("sad")
    ∧ get_empathetic_emotion ("angry") = ("neutral")
    ∧ get_empathetic_emotion ("surprised") = ("happy")
    ∧ get_empathetic_emotion ("neutral") = ("neutral") := by
  have htr : truthyOpt (transcriptEmotion d) = true := by
    rw [he]
    simp [truthyOpt, hne]
  rw [hm_transcript_completed]
  have hget : (transcriptEmotion d).getD ("") = e := by
    rw [he]
    rfl
  refine ⟨?_, ?_, ?_, ?_, ?_, ?_, by decide, by decide, by decide, by decide, by decide⟩
  · simp [htr, hget]
  · simp [htr, hget, update_tts_emotion, sendEvent, hc]
  · simp only [htr, if_true, hget, update_tts_emotion, sendEvent, hc]
    by_cases hdc : d.content = "" <;>
      simp [hdc, isToneUpdate, coze_name_of_empathetic]
  · simp only [htr, if_true, hget, update_tts_emotion, sendEvent, hc,
      coze_name_of_empathetic]
    by_cases hdc : d.content = "" <;> simp [hdc]
  · intro hde
    simp [transcriptEmotion, pyOrOpt, hde]
  · intro h1 h2 h3 h4
    simp [transcriptEmotion, pyOrOpt, truthyOpt, h1, h2, h3, h4]

/-- Witness for C5 on a connected session and a transcript event carrying
the remote emotion tag angry. -/
theorem C5_witness :
    c5State.is_connected = true
    ∧ transcriptEmotion c5Event = some ("angry")
    ∧ ("angry") ≠ ""
    ∧ ((handleMessage c5State ("conversation.audio_transcript.completed")
          c5Event).1.current_user_emotion = some ("angry")
       ∧ Output.emotionEvent ("angry")
           ∈ (handleMessage c5State ("conversation.audio_transcript.completed") c5Event).2
       ∧ ((handleMessage c5State ("conversation.audio_transcript.completed")
            c5Event).2.filter isToneUpdate).length = 1
       ∧ Output.send ("chat.update") (some (get_empathetic_emotion ("angry")))
           ∈ (handleMessage c5State ("conversation.audio_transcript.completed") c5Event).2
       ∧ (truthyOpt c5Event.emotion = true → transcriptEmotion c5Event = c5Event.emotion)
       ∧ (c5Event.emotion = none → c5Event.user_emotion = none →
            c5Event.voice_emotion = none → c5Event.content ≠ "" →
            transcriptEmotion c5Event = detect_emotion_from_text (c5Event.content))
       ∧ get_empathetic_emotion ("happy") = ("happy")
       ∧ get_empathetic_emotion ("sad") = ("sad")
       ∧ get_empathetic_emotion ("angry") = ("neutral")
       ∧ get_empathetic_emotion ("surprised") = ("happy")
       ∧ get_empathetic_emotion ("neutral") = ("neutral")) :=
  ⟨rfl, by decide, by decide,
   C5_transcript_completed c5State c5Event ("angry") rfl (by decide) (by decide)⟩

end Remy